import Mathlib

/-!
# Verification of the GitHub publish orchestrator

Shallow embedding of `src/tools/github-publisher` (publisher.py, api.py,
models.py, config.py).  Remote HTTP outcomes are abstracted by an `Oracle`
that fixes the response of each request the client can issue; every embedded
API operation returns its result together with the list of requests it
actually issued, so that side-effect claims (which calls reach the remote
store) can be stated as facts about the trace.

File contents are modelled by their byte length: the code reads raw bytes
but only ever branches on `len(content)`; the bytes themselves are forwarded
opaquely to the remote API, which the oracle abstracts.
-/

/-- Embedding of `GitHubAPIError` (api.py): a message plus an optional
HTTP status code, defaulting to 0. -/
structure GHError where
  message : String
  status_code : Nat := 0
deriving Repr, DecidableEq

/-- Embedding of `FileStatus` (models.py). -/
inductive FileStatus where
  | pending
  | uploading
  | success
  | failed
  | skipped
deriving Repr, DecidableEq

/-- Embedding of `FileEntry` (models.py); `content` is the byte length of
the file's content (see the module docstring). -/
structure FileEntry where
  path : String
  content : Nat
  sha : Option String := none
  status : FileStatus := .pending
  error : Option String := none
deriving Repr, DecidableEq

/-- Embedding of `TreeEntry` (models.py). -/
structure TreeEntry where
  path : String
  mode : String := "100644"
  type : String := "blob"
  sha : String := ""
deriving Repr, DecidableEq

/-- Embedding of `PublishResult` (models.py). -/
structure PublishResult where
  success : Bool
  repo_url : String := ""
  commit_sha : String := ""
  files_uploaded : Nat := 0
  files_skipped : Nat := 0
  files_failed : Nat := 0
  error : Option String := none
deriving Repr, DecidableEq

/-- `MAX_FILE_SIZE_MB` (config.py). -/
def MAX_FILE_SIZE_MB : Nat := 50

/-- `DEFAULT_TOPICS` (config.py). -/
def DEFAULT_TOPICS : List String :=
  ["tauri", "react", "typescript", "rust", "league-of-legends",
   "skin-manager", "desktop-app", "discord-oauth", "mod-manager", "vite"]

/-- One HTTP request issued by the embedded `GitHubAPI` client.  Constructors
mirror the endpoints the client touches during a publish run. -/
inductive ApiCall where
  /-- `GET /repos/{user}/{repo}` issued by `check_repo_exists`. -/
  | getRepo (repo : String)
  /-- `POST /user/repos` issued by `create_repository`. -/
  | createRepo (repo : String)
  /-- `PUT /repos/{user}/{repo}/topics` issued by `set_topics`. -/
  | putTopics (repo : String) (topics : List String)
  /-- `POST /repos/{user}/{repo}/git/blobs` issued by `create_blob`;
  `size` is the byte length of the uploaded content. -/
  | postBlob (repo : String) (size : Nat)
  /-- `GET /repos/{user}/{repo}/git/refs/heads/main` issued by
  `get_default_branch_sha`. -/
  | getRef (repo : String)
  /-- `POST /repos/{user}/{repo}/git/trees` issued by `create_tree`,
  recording the optional `base_tree` field of the payload. -/
  | postTree (repo : String) (base_tree : Option String) (entries : List TreeEntry)
  /-- `POST /repos/{user}/{repo}/git/commits` issued by `create_commit`,
  recording the `parents` list of the payload. -/
  | postCommit (repo : String) (tree : String) (parents : List String)
  /-- `PATCH /repos/{user}/{repo}/git/refs/{ref}` issued by `update_ref`. -/
  | patchRef (repo : String) (ref : String) (sha : String) (force : Bool)
deriving Repr, DecidableEq

/-- A call that creates or mutates remote state (everything except the two
GET endpoints the client uses). -/
def ApiCall.isMutation : ApiCall → Bool
  | .getRepo _ => false
  | .getRef _ => false
  | _ => true

/-- Fixes the remote outcome of every request a publish run can issue.
`blobOutcome i` is the response to the blob POST for the `i`-th collected
file.  `headTreeSha` is not consumed by any embedded code: it records the
remote-world fact (the tree id of the default branch head commit) needed to
state the spec's base-tree claim. -/
structure Oracle where
  getRepoOutcome : Except GHError Unit
  createRepoOutcome : Except GHError String
  setTopicsOutcome : Except GHError Unit
  blobOutcome : Nat → Except GHError String
  refGetOutcome : Except GHError String
  treeOutcome : Except GHError String
  commitOutcome : Except GHError String
  updateRefOutcome : Except GHError Unit
  headTreeSha : String

/-- Embedding of `GitHubAPI.check_repo_exists` (api.py): a successful GET
means the repository exists; a 404 error means it does not; any other error
is re-raised. -/
def check_repo_exists (o : Oracle) (repo_name : String) :
    Except GHError Bool × List ApiCall :=
  (match o.getRepoOutcome with
    | .ok _ => .ok true
    | .error e => if e.status_code == 404 then .ok false else .error e,
   [.getRepo repo_name])

/-- Embedding of `GitHubAPI.create_repository` (api.py); the successful
value is the created repository's `html_url`. -/
def create_repository (o : Oracle) (repo_name : String) :
    Except GHError String × List ApiCall :=
  (o.createRepoOutcome, [.createRepo repo_name])

/-- Embedding of `GitHubAPI.set_topics` (api.py): returns without issuing a
request when `topics` is empty; otherwise issues the PUT and propagates any
error (nothing in `set_topics` catches it). -/
def set_topics (o : Oracle) (repo_name : String) (topics : List String) :
    Except GHError Unit × List ApiCall :=
  if topics.isEmpty then (.ok (), [])
  else (o.setTopicsOutcome, [.putTopics repo_name topics])

/-- The message of the size-ceiling error raised by `create_blob`:
`File too large: {format_size(len(content))}`.  `format_size`'s
human-readable float formatting is abstracted to the raw byte count; only
the identity of the error matters to the claims. -/
def payloadTooLargeMsg (size : Nat) : String :=
  "File too large: " ++ toString size

/-- Embedding of `GitHubAPI.create_blob` (api.py): the size ceiling
(`len(content)/(1024*1024) > MAX_FILE_SIZE_MB`, i.e. exactly
`len(content) > MAX_FILE_SIZE_MB * 1024 * 1024`) is checked locally and
raises before any request is issued; otherwise the POST is issued and a
remote error is re-wrapped with a `Blob create failed:` prefix. -/
def create_blob (o : Oracle) (i : Nat) (repo_name : String) (size : Nat) :
    Except GHError String × List ApiCall :=
  if size > MAX_FILE_SIZE_MB * 1024 * 1024 then
    (.error { message := payloadTooLargeMsg size }, [])
  else
    match o.blobOutcome i with
    | .ok sha => (.ok sha, [.postBlob repo_name size])
    | .error e =>
        (.error { message := "Blob create failed: " ++ e.message,
                  status_code := e.status_code },
         [.postBlob repo_name size])

/-- Embedding of `GitHubAPI.create_tree` (api.py): issues the POST with the
entries and the optional `base_tree` field. -/
def create_tree (o : Oracle) (repo_name : String) (entries : List TreeEntry)
    (base_tree : Option String) : Except GHError String × List ApiCall :=
  (o.treeOutcome, [.postTree repo_name base_tree entries])

/-- Embedding of `GitHubAPI.create_commit` (api.py): the `parents` field
holds `[parent_sha]` when a parent is supplied and is absent (empty)
otherwise. -/
def api_create_commit (o : Oracle) (repo_name message tree_sha : String)
    (parent_sha : Option String) : Except GHError String × List ApiCall :=
  (o.commitOutcome,
   [.postCommit repo_name tree_sha
      (match parent_sha with | some p => [p] | none => [])])

/-- Embedding of `GitHubAPI.update_ref` (api.py). -/
def update_ref (o : Oracle) (repo_name ref sha : String) (force : Bool) :
    Except GHError Unit × List ApiCall :=
  (o.updateRefOutcome, [.patchRef repo_name ref sha force])

/-- Embedding of `GitHubAPI.get_default_branch_sha` (api.py): returns the
head commit sha of `refs/heads/main` on success and `none` on any
`GitHubAPIError` whatsoever. -/
def get_default_branch_sha (o : Oracle) (repo_name : String) :
    Option String × List ApiCall :=
  (match o.refGetOutcome with
    | .ok sha => some sha
    | .error _ => none,
   [.getRef repo_name])

/-- One iteration of the `upload_blobs` loop body (publisher.py, lines
83-97): attempt `create_blob` for one entry; on success set its sha and
mark it `SUCCESS` and derive its `TreeEntry`; on failure mark it `FAILED`
and record the error message. -/
def uploadOne (o : Oracle) (repo_name : String) (i : Nat) (e : FileEntry) :
    FileEntry × Option TreeEntry × List ApiCall :=
  match create_blob o i repo_name e.content with
  | (.ok sha, tr) =>
      ({ e with sha := some sha, status := .success },
       some { path := e.path, sha := sha }, tr)
  | (.error err, tr) =>
      ({ e with status := .failed, error := some err.message }, none, tr)

/-- The mutable state threaded through the `upload_blobs` loop: the
processed entries, the accumulated `tree_entries`, the `uploaded` and
`failed` counters, and the requests issued so far. -/
structure UploadState where
  files : List FileEntry
  tree_entries : List TreeEntry
  uploaded : Nat
  failed : Nat
  trace : List ApiCall
deriving Repr, DecidableEq

/-- The `for i, entry in enumerate(self.files)` loop of
`GitHubPublisher.upload_blobs` (publisher.py): every entry is attempted in
order; a failure updates only that entry and the loop continues. -/
def uploadLoop (o : Oracle) (repo_name : String) :
    Nat → List FileEntry → UploadState → UploadState
  | _, [], st => st
  | i, e :: rest, st =>
      let r := uploadOne o repo_name i e
      uploadLoop o repo_name (i + 1) rest
        { files := st.files ++ [r.1],
          tree_entries := st.tree_entries ++
            (match r.2.1 with | some t => [t] | none => []),
          uploaded := st.uploaded + (if r.2.1.isSome then 1 else 0),
          failed := st.failed + (if r.2.1.isSome then 0 else 1),
          trace := st.trace ++ r.2.2 }

/-- Embedding of `GitHubPublisher.upload_blobs` (publisher.py): runs the
loop over the collected entries starting from the empty state (both
`self.files`'s statuses and `self.tree_entries` are updated in place; the
publisher starts a run with `tree_entries = []`). -/
def upload_blobs (o : Oracle) (repo_name : String) (files : List FileEntry) :
    UploadState :=
  uploadLoop o repo_name 0 files
    { files := [], tree_entries := [], uploaded := 0, failed := 0, trace := [] }

/-- Embedding of `GitHubPublisher.create_commit` (publisher.py): returns
`none` immediately when `tree_entries` is empty; otherwise reads the
default branch head, creates the tree with `base_tree := parent_sha`,
creates the commit with that parent, and force-updates `heads/main`.
A raised `GitHubAPIError` propagates as `.error`. -/
def publisher_create_commit (o : Oracle) (repo_name message : String)
    (tree_entries : List TreeEntry) :
    Except GHError (Option String) × List ApiCall :=
  if tree_entries.isEmpty then (.ok none, [])
  else
    let p := get_default_branch_sha o repo_name
    match create_tree o repo_name tree_entries p.1 with
    | (.error e, tr2) => (.error e, p.2 ++ tr2)
    | (.ok tree_sha, tr2) =>
        match api_create_commit o repo_name message tree_sha p.1 with
        | (.error e, tr3) => (.error e, p.2 ++ tr2 ++ tr3)
        | (.ok commit_sha, tr3) =>
            match update_ref o repo_name "heads/main" commit_sha true with
            | (.error e, tr4) => (.error e, p.2 ++ tr2 ++ tr3 ++ tr4)
            | (.ok _, tr4) => (.ok (some commit_sha), p.2 ++ tr2 ++ tr3 ++ tr4)

/-- The local-filesystem facts `validate_source` examines: whether the
resolved source path exists and whether it is a directory. -/
structure SourceInfo where
  pathExists : Bool
  isDir : Bool
deriving Repr, DecidableEq

/-- Embedding of `GitHubPublisher.validate_source` (publisher.py). -/
def validate_source (src : SourceInfo) : Bool :=
  src.pathExists && src.isDir

/-- The `topics or DEFAULT_TOPICS` expression in `publish` (publisher.py):
`None` or an empty list falls back to `DEFAULT_TOPICS`. -/
def resolve_topics (topics : Option (List String)) : List String :=
  match topics with
  | some ts => if ts.isEmpty then DEFAULT_TOPICS else ts
  | none => DEFAULT_TOPICS

/-- Embedding of `GitHubPublisher.publish` (publisher.py), the error
boundary of the whole run.  `collected` holds the `(path, byte length)`
pairs that `collect_files` + `read_bytes` produce for the source directory,
in collection order; each becomes a `PENDING` `FileEntry`.  Any
`GitHubAPIError` raised by a step outside the per-file upload loop is
caught here and stored in `PublishResult.error`.  The returned trace lists
every request issued during the run, in order. -/
def publish (o : Oracle) (src : SourceInfo) (collected : List (String × Nat))
    (repo_name : String) (topics : Option (List String)) :
    PublishResult × List ApiCall :=
  -- Step 1: validate source
  if !validate_source src then
    ({ success := false, error := some "Invalid source path" }, [])
  else
    -- Step 2: check if repo exists (a non-404 error bubbles to the boundary)
    match check_repo_exists o repo_name with
    | (.error e, tr) => ({ success := false, error := some e.message }, tr)
    | (.ok true, tr) =>
        ({ success := false, error := some "Repository already exists" }, tr)
    | (.ok false, tr) =>
        -- Step 3: collect files
        let files : List FileEntry :=
          collected.map (fun pc => { path := pc.1, content := pc.2 })
        if files.length == 0 then
          ({ success := false, error := some "No files to upload" }, tr)
        else
          -- Step 4: create repository
          match create_repository o repo_name with
          | (.error e, tr2) =>
              ({ success := false, error := some e.message }, tr ++ tr2)
          | (.ok html_url, tr2) =>
              -- Step 5: set topics (`topics or DEFAULT_TOPICS`; an error
              -- here reaches the boundary and aborts the run)
              match set_topics o repo_name (resolve_topics topics) with
              | (.error e, tr3) =>
                  ({ success := false, repo_url := html_url,
                     error := some e.message }, tr ++ tr2 ++ tr3)
              | (.ok _, tr3) =>
                  -- Step 6: upload blobs
                  let st := upload_blobs o repo_name files
                  -- Step 7: create tree, commit, update ref
                  match publisher_create_commit o repo_name "Initial commit"
                      st.tree_entries with
                  | (.error e, tr4) =>
                      ({ success := false, repo_url := html_url,
                         files_uploaded := st.uploaded,
                         files_skipped := files.length - st.uploaded,
                         error := some e.message },
                       tr ++ tr2 ++ tr3 ++ st.trace ++ tr4)
                  | (.ok none, tr4) =>
                      ({ success := false, repo_url := html_url,
                         files_uploaded := st.uploaded,
                         files_skipped := files.length - st.uploaded },
                       tr ++ tr2 ++ tr3 ++ st.trace ++ tr4)
                  | (.ok (some commit_sha), tr4) =>
                      ({ success := true, repo_url := html_url,
                         commit_sha := commit_sha,
                         files_uploaded := st.uploaded,
                         files_skipped := files.length - st.uploaded },
                       tr ++ tr2 ++ tr3 ++ st.trace ++ tr4)

/-! ## Pointwise characterization of the upload loop -/

/-- The entries produced by the upload loop from position `i` on, computed
independently per file. -/
def procFiles (o : Oracle) (repo_name : String) : Nat → List FileEntry → List FileEntry
  | _, [] => []
  | i, e :: rest => (uploadOne o repo_name i e).1 :: procFiles o repo_name (i + 1) rest

/-- The tree entries produced by the upload loop from position `i` on. -/
def procTrees (o : Oracle) (repo_name : String) : Nat → List FileEntry → List TreeEntry
  | _, [] => []
  | i, e :: rest =>
      (match (uploadOne o repo_name i e).2.1 with | some t => [t] | none => []) ++
        procTrees o repo_name (i + 1) rest

/-- The number of successful uploads from position `i` on. -/
def procUploaded (o : Oracle) (repo_name : String) : Nat → List FileEntry → Nat
  | _, [] => 0
  | i, e :: rest =>
      (if (uploadOne o repo_name i e).2.1.isSome then 1 else 0) +
        procUploaded o repo_name (i + 1) rest

/-- The number of failed uploads from position `i` on. -/
def procFailed (o : Oracle) (repo_name : String) : Nat → List FileEntry → Nat
  | _, [] => 0
  | i, e :: rest =>
      (if (uploadOne o repo_name i e).2.1.isSome then 0 else 1) +
        procFailed o repo_name (i + 1) rest

/-- The requests issued by the upload loop from position `i` on. -/
def procTrace (o : Oracle) (repo_name : String) : Nat → List FileEntry → List ApiCall
  | _, [] => []
  | i, e :: rest =>
      (uploadOne o repo_name i e).2.2 ++ procTrace o repo_name (i + 1) rest

theorem uploadLoop_eq (o : Oracle) (repo_name : String) :
    ∀ (files : List FileEntry) (i : Nat) (st : UploadState),
    uploadLoop o repo_name i files st =
      { files := st.files ++ procFiles o repo_name i files,
        tree_entries := st.tree_entries ++ procTrees o repo_name i files,
        uploaded := st.uploaded + procUploaded o repo_name i files,
        failed := st.failed + procFailed o repo_name i files,
        trace := st.trace ++ procTrace o repo_name i files }
  | [], i, st => by
      simp [uploadLoop, procFiles, procTrees, procUploaded, procFailed, procTrace]
  | e :: rest, i, st => by
      rw [uploadLoop, uploadLoop_eq o repo_name rest (i + 1)]
      simp [procFiles, procTrees, procUploaded, procFailed, procTrace,
        List.append_assoc, Nat.add_assoc]

theorem upload_blobs_eq (o : Oracle) (repo_name : String) (files : List FileEntry) :
    upload_blobs o repo_name files =
      { files := procFiles o repo_name 0 files,
        tree_entries := procTrees o repo_name 0 files,
        uploaded := procUploaded o repo_name 0 files,
        failed := procFailed o repo_name 0 files,
        trace := procTrace o repo_name 0 files } := by
  rw [upload_blobs, uploadLoop_eq]
  simp

theorem procFiles_length (o : Oracle) (repo_name : String) :
    ∀ (files : List FileEntry) (i : Nat),
    (procFiles o repo_name i files).length = files.length
  | [], _ => rfl
  | _ :: rest, i => by
      rw [procFiles, List.length_cons, List.length_cons,
        procFiles_length o repo_name rest (i + 1)]

theorem procTrees_eq (o : Oracle) (repo_name : String) :
    ∀ (files : List FileEntry) (i : Nat),
    procTrees o repo_name i files =
      ((procFiles o repo_name i files).filter
        (fun e => e.status == FileStatus.success)).map
        (fun e => { path := e.path, sha := e.sha.getD "" })
  | [], _ => rfl
  | e :: rest, i => by
      rw [procTrees, procFiles, procTrees_eq o repo_name rest (i + 1)]
      rcases h : create_blob o i repo_name e.content with ⟨res, tr⟩
      cases res with
      | ok sha => simp [uploadOne, h]
      | error err => simp [uploadOne, h]

theorem procFiles_status (o : Oracle) (repo_name : String) :
    ∀ (files : List FileEntry) (i : Nat) (e : FileEntry),
    e ∈ procFiles o repo_name i files →
      e.status = FileStatus.success ∨
        (e.status = FileStatus.failed ∧ e.error.isSome) := by
  intro files
  induction files with
  | nil => intro i e h; simp [procFiles] at h
  | cons f rest ih =>
      intro i e h
      rw [procFiles] at h
      rcases List.mem_cons.mp h with h1 | h2
      · subst h1
        rcases hc : create_blob o i repo_name f.content with ⟨res, tr⟩
        cases res with
        | ok sha => left; simp [uploadOne, hc]
        | error err => right; simp [uploadOne, hc]
      · exact ih (i + 1) e h2

theorem procFiles_get (o : Oracle) (repo_name : String) :
    ∀ (files : List FileEntry) (i j : Nat) (h : j < files.length)
      (h2 : j < (procFiles o repo_name i files).length),
    (procFiles o repo_name i files).get ⟨j, h2⟩ =
      (uploadOne o repo_name (i + j) (files.get ⟨j, h⟩)).1
  | e :: rest, i, 0, _, _ => rfl
  | e :: rest, i, j + 1, h, h2 => by
      have hj : j < rest.length := Nat.lt_of_succ_lt_succ h
      have hj2 : j < (procFiles o repo_name (i + 1) rest).length := by
        rw [procFiles_length]; exact hj
      have hstep : (procFiles o repo_name i (e :: rest)).get ⟨j + 1, h2⟩ =
          (procFiles o repo_name (i + 1) rest).get ⟨j, hj2⟩ := rfl
      rw [hstep, procFiles_get o repo_name rest (i + 1) j hj hj2]
      have harith : (i + 1) + j = i + (j + 1) := by omega
      rw [harith]
      rfl

theorem resolve_topics_isEmpty_false (topics : Option (List String)) :
    (resolve_topics topics).isEmpty = false := by
  cases topics with
  | none => rfl
  | some ts =>
      rw [resolve_topics]
      rcases h : ts.isEmpty with _ | _
      · simp [h]
      · rw [if_pos rfl]; rfl

/-- The tail of a publish run that got past topic assignment (steps 6-7 of
`GitHubPublisher.publish`), with the three requests already issued by steps
2, 4 and 5 as the trace prefix. -/
def publishMain (o : Oracle) (collected : List (String × Nat))
    (repo_name : String) (topics : Option (List String)) (url : String) :
    PublishResult × List ApiCall :=
  let files : List FileEntry :=
    collected.map (fun pc => { path := pc.1, content := pc.2 })
  let st := upload_blobs o repo_name files
  let pre : List ApiCall :=
    [.getRepo repo_name, .createRepo repo_name,
     .putTopics repo_name (resolve_topics topics)]
  match publisher_create_commit o repo_name "Initial commit" st.tree_entries with
  | (.error e, tr4) =>
      ({ success := false, repo_url := url,
         files_uploaded := st.uploaded,
         files_skipped := files.length - st.uploaded,
         error := some e.message }, pre ++ st.trace ++ tr4)
  | (.ok none, tr4) =>
      ({ success := false, repo_url := url,
         files_uploaded := st.uploaded,
         files_skipped := files.length - st.uploaded },
       pre ++ st.trace ++ tr4)
  | (.ok (some commit_sha), tr4) =>
      ({ success := true, repo_url := url, commit_sha := commit_sha,
         files_uploaded := st.uploaded,
         files_skipped := files.length - st.uploaded },
       pre ++ st.trace ++ tr4)

theorem publish_eq_main (o : Oracle) (src : SourceInfo)
    (collected : List (String × Nat)) (repo_name : String)
    (topics : Option (List String)) (url : String) (ge : GHError)
    (hsrc : validate_source src = true)
    (hnx : o.getRepoOutcome = .error ge) (h404 : ge.status_code = 404)
    (hcoll : collected ≠ [])
    (hrepo : o.createRepoOutcome = .ok url)
    (htop : o.setTopicsOutcome = .ok ()) :
    publish o src collected repo_name topics =
      publishMain o collected repo_name topics url := by
  rcases collected with _ | ⟨c, cs⟩
  · exact absurd rfl hcoll
  · rw [publish, publishMain]
    simp [hsrc, check_repo_exists, hnx, h404, create_repository, hrepo,
      set_topics, resolve_topics_isEmpty_false, htop]

/-! ## Concrete remote worlds used by witnesses and counterexamples -/

/-- A remote world where the target repository does not exist and every
request succeeds. -/
def oracleAllOk : Oracle where
  getRepoOutcome := .error { message := "Not Found", status_code := 404 }
  createRepoOutcome := .ok "https://github.com/user/repo"
  setTopicsOutcome := .ok ()
  blobOutcome := fun i => .ok ("blob" ++ toString i)
  refGetOutcome := .ok "headcommit"
  treeOutcome := .ok "newtree"
  commitOutcome := .ok "newcommit"
  updateRefOutcome := .ok ()
  headTreeSha := "headtree"

/-- Like `oracleAllOk`, but the blob POST for the first file fails with an
HTTP 500. -/
def oracleFirstBlobFails : Oracle :=
  { oracleAllOk with
    blobOutcome := fun i =>
      if i == 0 then .error { message := "Internal error", status_code := 500 }
      else .ok ("blob" ++ toString i) }

/-- Like `oracleAllOk`, but every blob POST fails with an HTTP 502. -/
def oracleAllBlobsFail : Oracle :=
  { oracleAllOk with
    blobOutcome := fun _ => .error { message := "Bad gateway", status_code := 502 } }

/-- Like `oracleAllOk`, but the target repository already exists. -/
def oracleRepoExists : Oracle :=
  { oracleAllOk with getRepoOutcome := .ok () }

/-- Like `oracleAllOk`, but the topics PUT fails with an HTTP 422. -/
def oracleTopicsFail : Oracle :=
  { oracleAllOk with
    setTopicsOutcome := .error { message := "Validation Failed", status_code := 422 } }

/-- Like `oracleAllOk`, but reading the default branch head fails with an
HTTP 403 (e.g. rate limiting), so the repository cannot be told apart from
an empty one. -/
def oracleRefErr : Oracle :=
  { oracleAllOk with
    refGetOutcome := .error { message := "API rate limit exceeded", status_code := 403 } }

/-! ## Claims -/

/-- C1: after the upload phase, `tree_entries` is exactly the `Uploaded`
(`SUCCESS`) subset of the processed `FileEntry` list, converted
entry-for-entry (same path, the recorded blob sha, mode `100644`, type
`blob`); moreover every processed entry is `SUCCESS` or `FAILED`, so no
`Pending` or `Failed` entry can appear in the tree: an entry appears in
`tree_entries` iff its `create_blob` call succeeded. -/
theorem C1_tree_entries_exactly_uploaded (o : Oracle) (repo_name : String)
    (files : List FileEntry) :
    (upload_blobs o repo_name files).tree_entries =
      (((upload_blobs o repo_name files).files.filter
        (fun e => e.status == FileStatus.success)).map
        (fun e => ({ path := e.path, sha := e.sha.getD "" } : TreeEntry)))
    ∧ ∀ e ∈ (upload_blobs o repo_name files).files,
        e.status = FileStatus.success ∨ e.status = FileStatus.failed := by
  rw [upload_blobs_eq]
  refine ⟨procTrees_eq o repo_name files 0, ?_⟩
  intro e he
  rcases procFiles_status o repo_name files 0 e he with h | ⟨h, _⟩
  · exact Or.inl h
  · exact Or.inr h

/-- Witness for C1 at a concrete input: one file whose upload succeeds. -/
theorem C1_witness :
    FileEntry.status
      { path := "a.txt", content := 3, sha := some "blob0",
        status := FileStatus.success, error := none } = FileStatus.success ∨
    FileEntry.status
      { path := "a.txt", content := 3, sha := some "blob0",
        status := FileStatus.success, error := none } = FileStatus.failed :=
  (C1_tree_entries_exactly_uploaded oracleAllOk "repo"
    [{ path := "a.txt", content := 3 }]).2
    { path := "a.txt", content := 3, sha := some "blob0",
      status := FileStatus.success, error := none } (by decide)

/-- C4: the upload loop attempts every collected entry, in collection
order: the processed list has exactly one entry per collected entry,
the result at position `j` depends only on entry `j`'s own blob outcome
(so one file's failure never aborts the loop or affects another file), and
a failed entry records its error.  The loop returns — and assembling can
begin — only once this holds for the whole list. -/
theorem C4_per_file_failure_does_not_abort (o : Oracle) (repo_name : String)
    (files : List FileEntry) :
    (upload_blobs o repo_name files).files.length = files.length
    ∧ (∀ (j : Nat) (h : j < files.length)
        (h2 : j < (upload_blobs o repo_name files).files.length),
        (upload_blobs o repo_name files).files.get ⟨j, h2⟩ =
          (uploadOne o repo_name j (files.get ⟨j, h⟩)).1)
    ∧ ∀ e ∈ (upload_blobs o repo_name files).files,
        e.status = FileStatus.success ∨
          (e.status = FileStatus.failed ∧ e.error.isSome) := by
  rw [upload_blobs_eq]
  exact ⟨procFiles_length o repo_name files 0,
    fun j h h2 => by simpa using procFiles_get o repo_name files 0 j h h2,
    procFiles_status o repo_name files 0⟩

/-- Witness for C4 at a concrete input: the first file's upload fails, yet
the second file is still attempted (and succeeds). -/
theorem C4_witness :
    (upload_blobs oracleFirstBlobFails "repo"
      [{ path := "a.txt", content := 3 }, { path := "b.txt", content := 4 }]).files.get
        ⟨1, by decide⟩ =
      (uploadOne oracleFirstBlobFails "repo" 1 { path := "b.txt", content := 4 }).1 :=
  (C4_per_file_failure_does_not_abort oracleFirstBlobFails "repo"
    [{ path := "a.txt", content := 3 }, { path := "b.txt", content := 4 }]).2.1
    1 (by decide) (by decide)

/-- C6: when the target repository already exists (the existence GET
succeeds), the run fails with the already-exists error and the only
request ever issued is that GET — no blob, tree, commit, ref or
repository creation call reaches the remote store. -/
theorem C6_already_exists_zero_side_effects (o : Oracle) (src : SourceInfo)
    (collected : List (String × Nat)) (repo_name : String)
    (topics : Option (List String))
    (hsrc : validate_source src = true)
    (hex : o.getRepoOutcome = .ok ()) :
    publish o src collected repo_name topics =
      ({ success := false, error := some "Repository already exists" },
       [.getRepo repo_name])
    ∧ ∀ c ∈ (publish o src collected repo_name topics).2,
        c.isMutation = false := by
  have h : publish o src collected repo_name topics =
      ({ success := false, error := some "Repository already exists" },
       [.getRepo repo_name]) := by
    rw [publish]
    simp [hsrc, check_repo_exists, hex]
  refine ⟨h, ?_⟩
  rw [h]
  intro c hc
  simp only [List.mem_singleton] at hc
  subst hc
  rfl

/-- Witness for C6 at a concrete input. -/
theorem C6_witness :
    publish oracleRepoExists { pathExists := true, isDir := true }
        [("a.txt", 3)] "repo" none =
      ({ success := false, error := some "Repository already exists" },
       [.getRepo "repo"]) :=
  (C6_already_exists_zero_side_effects oracleRepoExists
    { pathExists := true, isDir := true } [("a.txt", 3)] "repo" none
    rfl rfl).1

/-- C9 counterexample: a run over a valid source that collects zero files
while the target repository already exists fails with the already-exists
error, not with the nothing-to-publish error: the repository-existence
check is decided before the collection emptiness check, contrary to the
claimed `Validating → Collecting → Provisioning` order. -/
theorem C9_counterexample :
    (publish oracleRepoExists { pathExists := true, isDir := true }
        [] "repo" none).1.error = some "Repository already exists"
    ∧ (publish oracleRepoExists { pathExists := true, isDir := true }
        [] "repo" none).1.error ≠ some "No files to upload" := by
  decide

/-- C9 amended: over a valid source with zero collected files, the run
fails with the nothing-to-publish error provided the target repository
does not already exist (the existence GET returns 404); when the
repository exists, the already-exists failure wins because the existence
check precedes collection. -/
theorem C9_nothing_to_publish_when_repo_absent (o : Oracle)
    (src : SourceInfo) (repo_name : String) (topics : Option (List String))
    (ge : GHError)
    (hsrc : validate_source src = true)
    (hnx : o.getRepoOutcome = .error ge) (h404 : ge.status_code = 404) :
    publish o src [] repo_name topics =
      ({ success := false, error := some "No files to upload" },
       [.getRepo repo_name]) := by
  rw [publish]
  simp [hsrc, check_repo_exists, hnx, h404]

/-- Witness for the amended C9 at a concrete input. -/
theorem C9_witness :
    publish oracleAllOk { pathExists := true, isDir := true } [] "repo" none =
      ({ success := false, error := some "No files to upload" },
       [.getRepo "repo"]) :=
  C9_nothing_to_publish_when_repo_absent oracleAllOk
    { pathExists := true, isDir := true } "repo" none
    { message := "Not Found", status_code := 404 } rfl rfl rfl

/-- C3 counterexample: a concrete run in which repository creation
succeeded and the topics PUT then fails — the run aborts with the topic
error: no blob POST is ever issued and the result is a failure, contrary
to the claim that topic failure never blocks the upload phase. -/
theorem C3_counterexample :
    (publish oracleTopicsFail { pathExists := true, isDir := true }
        [("a.txt", 3)] "repo" none).1.success = false
    ∧ (publish oracleTopicsFail { pathExists := true, isDir := true }
        [("a.txt", 3)] "repo" none).1.error = some "Validation Failed"
    ∧ (publish oracleTopicsFail { pathExists := true, isDir := true }
        [("a.txt", 3)] "repo" none).2 =
      [.getRepo "repo", .createRepo "repo", .putTopics "repo" DEFAULT_TOPICS] := by
  decide

/-- C3 amended: a `set_topics` failure after successful repository
creation aborts the whole workflow — `publish` returns `success = false`
with the topic error in `PublishResult.error`, and the run stops with
only the existence GET, the repository POST, and the topics PUT issued
(in particular, no blob is uploaded). -/
theorem C3_topics_failure_aborts_run (o : Oracle) (src : SourceInfo)
    (collected : List (String × Nat)) (repo_name : String)
    (topics : Option (List String)) (url : String) (ge e : GHError)
    (hsrc : validate_source src = true)
    (hnx : o.getRepoOutcome = .error ge) (h404 : ge.status_code = 404)
    (hcoll : collected ≠ [])
    (hrepo : o.createRepoOutcome = .ok url)
    (htop : o.setTopicsOutcome = .error e) :
    publish o src collected repo_name topics =
      ({ success := false, repo_url := url, error := some e.message },
       [.getRepo repo_name, .createRepo repo_name,
        .putTopics repo_name (resolve_topics topics)]) := by
  rcases collected with _ | ⟨c, cs⟩
  · exact absurd rfl hcoll
  · rw [publish]
    simp [hsrc, check_repo_exists, hnx, h404, create_repository, hrepo,
      set_topics, resolve_topics_isEmpty_false, htop]

/-- Witness for the amended C3 at a concrete input. -/
theorem C3_witness :
    publish oracleTopicsFail { pathExists := true, isDir := true }
        [("b.txt", 1)] "repo" none =
      ({ success := false, repo_url := "https://github.com/user/repo",
         error := some "Validation Failed" },
       [.getRepo "repo", .createRepo "repo",
        .putTopics "repo" (resolve_topics none)]) :=
  C3_topics_failure_aborts_run oracleTopicsFail
    { pathExists := true, isDir := true } [("b.txt", 1)] "repo" none
    "https://github.com/user/repo" { message := "Not Found", status_code := 404 }
    { message := "Validation Failed", status_code := 422 }
    rfl rfl rfl (by decide) rfl rfl

/-- C2 (code bug, evaluated at the failing input): one collected file
whose blob upload fails.  `publish` reports `files_failed = 0` and
`files_skipped = 1` although exactly one entry ended FAILED and none
were skipped: `publish` sets `files_skipped = len(files) - uploaded`
(folding failures into the skipped tally) and never assigns
`result.files_failed`, so the summary printed from these fields cannot
distinguish failed from skipped files. -/
theorem C2_failed_count_reported_as_skipped :
    (publish oracleFirstBlobFails { pathExists := true, isDir := true }
        [("a.txt", 3)] "repo" none).1.files_failed = 0
    ∧ (publish oracleFirstBlobFails { pathExists := true, isDir := true }
        [("a.txt", 3)] "repo" none).1.files_uploaded = 0
    ∧ (publish oracleFirstBlobFails { pathExists := true, isDir := true }
        [("a.txt", 3)] "repo" none).1.files_skipped = 1
    ∧ (upload_blobs oracleFirstBlobFails "repo"
        [{ path := "a.txt", content := 3 }]).failed = 1 := by
  decide

theorem isEmpty_false_of_ne_nil {α : Type} {l : List α} (h : l ≠ []) :
    l.isEmpty = false := by
  cases l with
  | nil => exact absurd rfl h
  | cons a as => rfl

theorem procTrees_nil_of_all_fail (o : Oracle) (repo_name : String) :
    ∀ (files : List FileEntry) (i : Nat),
    (∀ (j : Nat) (h : j < files.length),
      ∃ err, (create_blob o (i + j) repo_name
        (files.get ⟨j, h⟩).content).1 = .error err) →
    procTrees o repo_name i files = [] ∧ procUploaded o repo_name i files = 0
  | [], _, _ => ⟨rfl, rfl⟩
  | e :: rest, i, hfail => by
      obtain ⟨err, herr⟩ := hfail 0 (Nat.succ_pos _)
      have herr2 : (create_blob o i repo_name e.content).1 = .error err := by
        simpa using herr
      have hhead : (uploadOne o repo_name i e).2.1 = none := by
        rcases hc : create_blob o i repo_name e.content with ⟨res, tr⟩
        rw [hc] at herr2
        cases res with
        | ok sha => simp at herr2
        | error err2 => simp [uploadOne, hc]
      have htail := procTrees_nil_of_all_fail o repo_name rest (i + 1) (by
        intro j h
        obtain ⟨err2, herr3⟩ := hfail (j + 1) (Nat.succ_lt_succ h)
        refine ⟨err2, ?_⟩
        have harith : i + (j + 1) = (i + 1) + j := by omega
        rw [harith] at herr3
        simpa using herr3)
      constructor
      · rw [procTrees, hhead, htail.1]
        rfl
      · rw [procUploaded, hhead, htail.2]
        rfl

/-- C7 counterexample: a concrete run in which the single collected file
fails to upload — the assembled tree-entry list is empty, the run ends
with `success = false`, but `PublishResult.error` is `none`, contrary to
the claim that a `NoFilesUploaded` error surfaces in the result. -/
theorem C7_counterexample :
    (publish oracleAllBlobsFail { pathExists := true, isDir := true }
        [("a.txt", 3)] "repo" none).1.success = false
    ∧ (publish oracleAllBlobsFail { pathExists := true, isDir := true }
        [("a.txt", 3)] "repo" none).1.error = none := by
  decide

/-- C7 amended: when files were collected but every blob attempt fails
(so the assembled tree-entry list is empty), `create_commit` returns
`None` without raising, and `publish` returns `success = false` with the
upload counts — but `PublishResult.error` is left unset (`none`) and
`commit_sha` empty; the only `NoFilesUploaded` signal is a log line. -/
theorem C7_all_uploads_failed_error_unset (o : Oracle) (src : SourceInfo)
    (collected : List (String × Nat)) (repo_name : String)
    (topics : Option (List String)) (url : String) (ge : GHError)
    (hsrc : validate_source src = true)
    (hnx : o.getRepoOutcome = .error ge) (h404 : ge.status_code = 404)
    (hcoll : collected ≠ [])
    (hrepo : o.createRepoOutcome = .ok url)
    (htop : o.setTopicsOutcome = .ok ())
    (hfail : ∀ (j : Nat) (h : j < collected.length),
      ∃ err, (create_blob o j repo_name
        (collected.get ⟨j, h⟩).2).1 = .error err) :
    (publish o src collected repo_name topics).1 =
      { success := false, repo_url := url, commit_sha := "",
        files_uploaded := 0, files_skipped := collected.length,
        files_failed := 0, error := none } := by
  rw [publish_eq_main o src collected repo_name topics url ge hsrc hnx h404
    hcoll hrepo htop]
  simp only [publishMain]
  have hlen : (collected.map
      (fun pc => ({ path := pc.1, content := pc.2 } : FileEntry))).length =
      collected.length := List.length_map _ _
  have hfail2 : ∀ (j : Nat) (h : j < (collected.map
      (fun pc => ({ path := pc.1, content := pc.2 } : FileEntry))).length),
      ∃ err, (create_blob o (0 + j) repo_name
        ((collected.map
          (fun pc => ({ path := pc.1, content := pc.2 } : FileEntry))).get
            ⟨j, h⟩).content).1 = .error err := by
    intro j h
    have hj : j < collected.length := hlen ▸ h
    obtain ⟨err, herr⟩ := hfail j hj
    refine ⟨err, ?_⟩
    rw [Nat.zero_add, List.get_map]
    exact herr
  have hproc := procTrees_nil_of_all_fail o repo_name
    (collected.map (fun pc => ({ path := pc.1, content := pc.2 } : FileEntry)))
    0 hfail2
  have hub := upload_blobs_eq o repo_name
    (collected.map (fun pc => ({ path := pc.1, content := pc.2 } : FileEntry)))
  have hte : (upload_blobs o repo_name
      (collected.map
        (fun pc => ({ path := pc.1, content := pc.2 } : FileEntry)))).tree_entries
      = [] := by rw [hub]; exact hproc.1
  have hup : (upload_blobs o repo_name
      (collected.map
        (fun pc => ({ path := pc.1, content := pc.2 } : FileEntry)))).uploaded
      = 0 := by rw [hub]; exact hproc.2
  rw [hte, hup]
  simp [publisher_create_commit, hlen]

/-- Witness for the amended C7 at a concrete input. -/
theorem C7_witness :
    (publish oracleAllBlobsFail { pathExists := true, isDir := true }
        [("c.txt", 5)] "repo" none).1 =
      { success := false, repo_url := "https://github.com/user/repo",
        commit_sha := "", files_uploaded := 0, files_skipped := 1,
        files_failed := 0, error := none } :=
  C7_all_uploads_failed_error_unset oracleAllBlobsFail
    { pathExists := true, isDir := true } [("c.txt", 5)] "repo" none
    "https://github.com/user/repo" { message := "Not Found", status_code := 404 }
    rfl rfl rfl (by decide) rfl rfl
    (by
      intro j h
      simp only [List.length_singleton] at h
      have hj : j = 0 := by omega
      subst hj
      exact ⟨{ message := "Blob create failed: Bad gateway",
               status_code := 502 }, rfl⟩)

theorem get_congr {α : Type} {l l' : List α} (h : l = l') {j : Nat}
    (h2 : j < l.length) (h2' : j < l'.length) :
    l.get ⟨j, h2⟩ = l'.get ⟨j, h2'⟩ := by
  subst h; rfl

theorem upload_entry_eq (o : Oracle) (repo_name : String)
    (files : List FileEntry) (j : Nat) (hj : j < files.length)
    (h2 : j < (upload_blobs o repo_name files).files.length) :
    (upload_blobs o repo_name files).files.get ⟨j, h2⟩ =
      (uploadOne o repo_name j (files.get ⟨j, hj⟩)).1 := by
  have hfe : (upload_blobs o repo_name files).files =
      procFiles o repo_name 0 files := by rw [upload_blobs_eq]
  have h2' : j < (procFiles o repo_name 0 files).length := by
    rw [procFiles_length]; exact hj
  rw [get_congr hfe h2 h2']
  simpa using procFiles_get o repo_name files 0 j hj h2'

theorem publisher_create_commit_ok (o : Oracle) (repo_name message : String)
    (entries : List TreeEntry) (t c : String)
    (hne : entries ≠ [])
    (ht : o.treeOutcome = .ok t) (hc : o.commitOutcome = .ok c)
    (hr : o.updateRefOutcome = .ok ()) :
    (publisher_create_commit o repo_name message entries).1 = .ok (some c) := by
  rw [publisher_create_commit, isEmpty_false_of_ne_nil hne]
  simp [create_tree, ht, api_create_commit, hc, update_ref, hr]

/-- C5: a file whose content exceeds `MAX_FILE_SIZE_MB` makes its
`create_blob` call fail locally with the size-ceiling error, issuing no
request at all; that entry is marked `FAILED` during upload, and — as long
as at least one other file's blob POST succeeds and the downstream tree,
commit and ref calls succeed — the run still ends with `success = true`. -/
theorem C5_oversize_fails_locally_run_succeeds (o : Oracle)
    (src : SourceInfo) (collected : List (String × Nat))
    (repo_name : String) (topics : Option (List String)) (url t c : String)
    (ge : GHError) (k j0 : Nat)
    (hsrc : validate_source src = true)
    (hnx : o.getRepoOutcome = .error ge) (h404 : ge.status_code = 404)
    (hcoll : collected ≠ [])
    (hrepo : o.createRepoOutcome = .ok url)
    (htop : o.setTopicsOutcome = .ok ())
    (hk : k < collected.length)
    (hbig : (collected.get ⟨k, hk⟩).2 > MAX_FILE_SIZE_MB * 1024 * 1024)
    (hj0 : j0 < collected.length) (hne : j0 ≠ k)
    (hsmall : ¬ (collected.get ⟨j0, hj0⟩).2 > MAX_FILE_SIZE_MB * 1024 * 1024)
    (sha0 : String) (hok0 : o.blobOutcome j0 = .ok sha0)
    (ht : o.treeOutcome = .ok t) (hcm : o.commitOutcome = .ok c)
    (hr : o.updateRefOutcome = .ok ()) :
    create_blob o k repo_name (collected.get ⟨k, hk⟩).2 =
      (.error { message := payloadTooLargeMsg (collected.get ⟨k, hk⟩).2 }, [])
    ∧ (∀ h2 : k < (upload_blobs o repo_name (collected.map
          (fun pc => ({ path := pc.1, content := pc.2 } : FileEntry)))).files.length,
        ((upload_blobs o repo_name (collected.map
          (fun pc => ({ path := pc.1, content := pc.2 } : FileEntry)))).files.get
            ⟨k, h2⟩).status = FileStatus.failed)
    ∧ (publish o src collected repo_name topics).1.success = true
    ∧ (publish o src collected repo_name topics).1.commit_sha = c := by
  have ha : create_blob o k repo_name (collected.get ⟨k, hk⟩).2 =
      (.error { message := payloadTooLargeMsg (collected.get ⟨k, hk⟩).2 }, []) := by
    rw [create_blob, if_pos hbig]
  refine ⟨ha, ?_, ?_⟩
  case refine_1 =>
    intro h2
    have hkf : k < (collected.map
        (fun pc => ({ path := pc.1, content := pc.2 } : FileEntry))).length := by
      rw [List.length_map]; exact hk
    rw [upload_entry_eq o repo_name _ k hkf h2]
    have hcontent : ((collected.map
        (fun pc => ({ path := pc.1, content := pc.2 } : FileEntry))).get
          ⟨k, hkf⟩).content = (collected.get ⟨k, hk⟩).2 := by
      simp [List.get_eq_getElem]
    have ha2 : create_blob o k repo_name ((collected.map
        (fun pc => ({ path := pc.1, content := pc.2 } : FileEntry))).get
          ⟨k, hkf⟩).content =
        (.error { message := payloadTooLargeMsg (collected.get ⟨k, hk⟩).2 }, []) := by
      rw [hcontent, ha]
    simp only [uploadOne]
    rw [ha2]
  case refine_2 =>
    -- the entry at `j0` uploads successfully, so the tree-entry list is
    -- nonempty and the commit pipeline runs to completion
    have hj0f : j0 < (collected.map
        (fun pc => ({ path := pc.1, content := pc.2 } : FileEntry))).length := by
      rw [List.length_map]; exact hj0
    have h2j : j0 < (upload_blobs o repo_name (collected.map
        (fun pc => ({ path := pc.1, content := pc.2 } : FileEntry)))).files.length := by
      rw [upload_blobs_eq]
      show j0 < (procFiles o repo_name 0 _).length
      rw [procFiles_length]; exact hj0f
    have hcontent0 : ((collected.map
        (fun pc => ({ path := pc.1, content := pc.2 } : FileEntry))).get
          ⟨j0, hj0f⟩).content = (collected.get ⟨j0, hj0⟩).2 := by
      simp [List.get_eq_getElem]
    have hblob0 : create_blob o j0 repo_name ((collected.map
        (fun pc => ({ path := pc.1, content := pc.2 } : FileEntry))).get
          ⟨j0, hj0f⟩).content = (.ok sha0, [.postBlob repo_name
            (collected.get ⟨j0, hj0⟩).2]) := by
      rw [hcontent0, create_blob, if_neg hsmall, hok0]
    have hstat : ((upload_blobs o repo_name (collected.map
        (fun pc => ({ path := pc.1, content := pc.2 } : FileEntry)))).files.get
          ⟨j0, h2j⟩).status = FileStatus.success := by
      rw [upload_entry_eq o repo_name _ j0 hj0f h2j]
      simp only [uploadOne]
      rw [hblob0]
    have hmem := List.get_mem (upload_blobs o repo_name (collected.map
        (fun pc => ({ path := pc.1, content := pc.2 } : FileEntry)))).files
        j0 h2j
    have hfe : (upload_blobs o repo_name (collected.map
        (fun pc => ({ path := pc.1, content := pc.2 } : FileEntry)))).files =
        procFiles o repo_name 0 (collected.map
          (fun pc => ({ path := pc.1, content := pc.2 } : FileEntry))) := by
      rw [upload_blobs_eq]
    have hteq : (upload_blobs o repo_name (collected.map
        (fun pc => ({ path := pc.1, content := pc.2 } : FileEntry)))).tree_entries =
        ((procFiles o repo_name 0 (collected.map
          (fun pc => ({ path := pc.1, content := pc.2 } : FileEntry)))).filter
            (fun e => e.status == FileStatus.success)).map
          (fun e => ({ path := e.path, sha := e.sha.getD "" } : TreeEntry)) := by
      rw [upload_blobs_eq]
      exact procTrees_eq o repo_name _ 0
    have htne : (upload_blobs o repo_name (collected.map
        (fun pc => ({ path := pc.1, content := pc.2 } : FileEntry)))).tree_entries
        ≠ [] := by
      rw [hteq]
      intro hnil
      rcases List.map_eq_nil.mp hnil with hfilnil
      have hmemf : (upload_blobs o repo_name (collected.map
          (fun pc => ({ path := pc.1, content := pc.2 } : FileEntry)))).files.get
            ⟨j0, h2j⟩ ∈ (procFiles o repo_name 0 (collected.map
          (fun pc => ({ path := pc.1, content := pc.2 } : FileEntry)))).filter
            (fun e => e.status == FileStatus.success) := by
        rw [List.mem_filter]
        have hstat2 := hstat
        rw [List.get_eq_getElem] at hstat2
        refine ⟨by rw [← hfe]; exact hmem, by simp [hstat2]⟩
      rw [hfilnil] at hmemf
      exact absurd hmemf (List.not_mem_nil _)
    have hfst := publisher_create_commit_ok o repo_name "Initial commit"
      (upload_blobs o repo_name (collected.map
        (fun pc => ({ path := pc.1, content := pc.2 } : FileEntry)))).tree_entries
      t c htne ht hcm hr
    rw [publish_eq_main o src collected repo_name topics url ge hsrc hnx h404
      hcoll hrepo htop]
    simp only [publishMain]
    rcases hpc : publisher_create_commit o repo_name "Initial commit"
        (upload_blobs o repo_name (collected.map
          (fun pc => ({ path := pc.1, content := pc.2 } : FileEntry)))).tree_entries
      with ⟨res, tr4⟩
    rw [hpc]
    rw [hpc] at hfst
    simp only at hfst
    subst hfst
    simp

/-- Witness for C5 at a concrete input: a 50 MiB + 1 byte file plus a
small file; the oversized file fails locally, the run succeeds. -/
theorem C5_witness :
    create_blob oracleAllOk 0 "repo" 52428801 =
      (.error { message := payloadTooLargeMsg 52428801 }, [])
    ∧ (publish oracleAllOk { pathExists := true, isDir := true }
        [("big.bin", 52428801), ("a.txt", 3)] "repo" none).1.success = true :=
  have h := C5_oversize_fails_locally_run_succeeds oracleAllOk
    { pathExists := true, isDir := true } [("big.bin", 52428801), ("a.txt", 3)]
    "repo" none "https://github.com/user/repo" "newtree" "newcommit"
    { message := "Not Found", status_code := 404 } 0 1
    rfl rfl rfl (by decide) rfl rfl
    (by decide) (by decide) (by decide) (by decide) (by decide)
    "blob1" rfl rfl rfl rfl
  ⟨h.1, h.2.2.1⟩

/-- C8 counterexample: in a concrete successful run the tree POST carries
`base_tree = "headcommit"` — the sha returned by the ref lookup, which is
the default branch head **commit** id — and not the head commit's tree id
(`headTreeSha = "headtree"`), contrary to the claim. -/
theorem C8_counterexample :
    ApiCall.postTree "repo" (some "headcommit")
        [{ path := "a.txt", sha := "blob0" }] ∈
      (publish oracleAllOk { pathExists := true, isDir := true }
        [("a.txt", 3)] "repo" none).2
    ∧ some oracleAllOk.headTreeSha ≠ some "headcommit" := by
  decide

/-- C8 amended: whenever the commit phase runs with a nonempty tree-entry
list and the ref lookup returns a head sha, the tree POST's `base_tree`
field carries exactly that returned sha — the head **commit** identifier
(`data["object"]["sha"]` of `refs/heads/main`), not the head commit's tree
identifier. -/
theorem C8_base_tree_is_head_commit_sha (o : Oracle)
    (repo_name message : String) (entries : List TreeEntry) (sha : String)
    (hne : entries ≠ []) (href : o.refGetOutcome = .ok sha) :
    ApiCall.postTree repo_name (some sha) entries ∈
      (publisher_create_commit o repo_name message entries).2 := by
  rw [publisher_create_commit, isEmpty_false_of_ne_nil hne]
  rcases htree : o.treeOutcome with e1 | t
  · simp [get_default_branch_sha, href, create_tree, htree]
  · rcases hcm : o.commitOutcome with e2 | c
    · simp [get_default_branch_sha, href, create_tree, htree,
        api_create_commit, hcm]
    · rcases hr : o.updateRefOutcome with e3 | u
      · simp [get_default_branch_sha, href, create_tree, htree,
          api_create_commit, hcm, update_ref, hr]
      · simp [get_default_branch_sha, href, create_tree, htree,
          api_create_commit, hcm, update_ref, hr]

/-- Witness for the amended C8 at a concrete input. -/
theorem C8_witness :
    ApiCall.postTree "repo" (some "headcommit")
        [{ path := "x", sha := "s1" }] ∈
      (publisher_create_commit oracleAllOk "repo" "msg"
        [{ path := "x", sha := "s1" }]).2 :=
  C8_base_tree_is_head_commit_sha oracleAllOk "repo" "msg"
    [{ path := "x", sha := "s1" }] "headcommit" (by decide) rfl

/-- C10: `get_default_branch_sha` returns `none` on *every*
`GitHubAPIError` — an authentication failure, a rate limit, or a network
error is indistinguishable from a repository with no commits — and the
commit phase then creates the tree with no `base_tree` and the commit
with an empty `parents` list. -/
theorem C10_any_ref_error_means_no_base_and_no_parent (o : Oracle)
    (repo_name : String) (e : GHError)
    (herr : o.refGetOutcome = .error e) :
    (get_default_branch_sha o repo_name).1 = none
    ∧ ∀ (message : String) (entries : List TreeEntry), entries ≠ [] →
        ApiCall.postTree repo_name none entries ∈
          (publisher_create_commit o repo_name message entries).2
        ∧ ∀ (r t : String) (ps : List String),
            ApiCall.postCommit r t ps ∈
              (publisher_create_commit o repo_name message entries).2 →
            ps = [] := by
  constructor
  · simp [get_default_branch_sha, herr]
  · intro message entries hne
    constructor
    · rw [publisher_create_commit, isEmpty_false_of_ne_nil hne]
      rcases htree : o.treeOutcome with e1 | t
      · simp [get_default_branch_sha, herr, create_tree, htree]
      · rcases hcm : o.commitOutcome with e2 | c
        · simp [get_default_branch_sha, herr, create_tree, htree,
            api_create_commit, hcm]
        · rcases hr : o.updateRefOutcome with e3 | u
          · simp [get_default_branch_sha, herr, create_tree, htree,
              api_create_commit, hcm, update_ref, hr]
          · simp [get_default_branch_sha, herr, create_tree, htree,
              api_create_commit, hcm, update_ref, hr]
    · intro r t2 ps hmem
      rw [publisher_create_commit, isEmpty_false_of_ne_nil hne] at hmem
      rcases htree : o.treeOutcome with e1 | t
      · simp [get_default_branch_sha, herr, create_tree, htree] at hmem
      · rcases hcm : o.commitOutcome with e2 | c
        · simp [get_default_branch_sha, herr, create_tree, htree,
            api_create_commit, hcm] at hmem
          exact hmem.2.2
        · rcases hr : o.updateRefOutcome with e3 | u
          · simp [get_default_branch_sha, herr, create_tree, htree,
              api_create_commit, hcm, update_ref, hr] at hmem
            exact hmem.2.2
          · simp [get_default_branch_sha, herr, create_tree, htree,
              api_create_commit, hcm, update_ref, hr] at hmem
            exact hmem.2.2

/-- Witness for C10 at a concrete input: a rate-limited ref lookup. -/
theorem C10_witness :
    (get_default_branch_sha oracleRefErr "repo").1 = none
    ∧ ApiCall.postTree "repo" none [{ path := "y", sha := "s2" }] ∈
        (publisher_create_commit oracleRefErr "repo" "msg"
          [{ path := "y", sha := "s2" }]).2 :=
  have h := C10_any_ref_error_means_no_base_and_no_parent oracleRefErr "repo"
    { message := "API rate limit exceeded", status_code := 403 } rfl
  ⟨h.1, (h.2 "msg" [{ path := "y", sha := "s2" }] (by decide)).1⟩
